import Mathlib

/-!
Shallow embedding of `src/actix-framed/src/route.rs` (the `FramedRoute`
builder / descriptor / factory / service chain) and proofs of the spec
claims about it.

Modelling conventions:
* `Method` is the set of HTTP verb tokens (`actix_http::http::Method`).
* A Rust `FnMut(FramedRequest) -> R + Clone` handler is modelled as a
  `Handler σ Req ε`: an explicit closure state of type `σ` together with a
  step function `run : σ → Req → σ × Except ε Unit` (the `R : IntoFuture`
  outcome has `Item = ()` by the trait bounds, so the success payload is the
  unit value; the error type `ε` is rendered by a `display` function, the
  `fmt::Display` instance). Cloning a handler duplicates its state, which in
  this pure embedding is ordinary value copying.
* The futures-0.1 `Poll<T, E> = Result<Async<T>, E>` is `Except E (Async T)`,
  and the service's `Error = actix_http::Error` is the opaque `DispatchError`.
* `FramedRouteService.call` is a pure function returning the service with its
  updated handler state (the `&mut self` receiver), the completion value of
  the boxed future, and the list of log lines emitted via `log::error!`.
* `FramedRouteFactory.new_service` takes `&self` in Rust, so it is a pure
  function of the factory; its `FutureResult<Service, InitError>` with
  `InitError = ()` is `Except Unit (FramedRouteService σ Req ε)`.
-/

/-- HTTP verb tokens (`actix_http::http::Method`); the four used by the
builder shortcuts plus some further standard verbs. -/
inductive Method : Type
  | GET
  | POST
  | PUT
  | DELETE
  | PATCH
  | HEAD
  | OPTIONS
  deriving DecidableEq, Repr

/-- Severity levels of the `log` crate collaborator. -/
inductive LogLevel : Type
  | error
  | warn
  | info
  deriving DecidableEq, Repr

/-- One line sent to the logging collaborator: a severity and a message. -/
structure LogEntry : Type where
  level : LogLevel
  msg : String
  deriving DecidableEq, Repr

/-- The dispatcher's own error channel type (`actix_http::Error`). It is
structurally present but never produced by this module. -/
inductive DispatchError : Type
  | mk (msg : String)
  deriving DecidableEq, Repr

/-- The futures-0.1 `Async<T>` readiness value. -/
inductive Async (α : Type) : Type
  | Ready (a : α)
  | NotReady
  deriving DecidableEq, Repr

/-- A user handler: Rust `F : FnMut(FramedRequest<Io, S>) -> R + Clone` with
`R : IntoFuture<Item = (), Error = ε>`. The closure's mutable captured state
has type `σ`; invoking the handler steps the state and yields the outcome. -/
structure Handler (σ Req ε : Type) : Type where
  state : σ
  run : σ → Req → σ × Except ε Unit

/-- `FramedRouteService<Io, S, F, R>`: the live per-connection dispatcher,
holding its own copies of the handler and the method list. -/
structure FramedRouteService (σ Req ε : Type) : Type where
  handler : Handler σ Req ε
  methods : List Method

/-- `FramedRouteService::poll_ready`: `Ok(Async::Ready(()))`, unconditionally. -/
def FramedRouteService.poll_ready (_s : FramedRouteService σ Req ε) :
    Except DispatchError (Async Unit) :=
  Except.ok (Async.Ready ())

/-- `FramedRouteService::call`: invoke the handler on the request, then on the
resulting outcome: on `Err(e)` emit `error!("Error in request handler: {}", e)`
to the log, and in every case complete with `Ok(())`. Returns the service with
the handler's updated closure state, the completion value, and the emitted log
lines. -/
def FramedRouteService.call (s : FramedRouteService σ Req ε)
    (display : ε → String) (req : Req) :
    FramedRouteService σ Req ε × Except DispatchError Unit × List LogEntry :=
  let out := s.handler.run s.handler.state req
  let logs : List LogEntry :=
    match out.2 with
    | Except.ok _ => []
    | Except.error e =>
        [⟨LogLevel.error, "Error in request handler: " ++ display e⟩]
  (⟨⟨out.1, s.handler.run⟩, s.methods⟩, Except.ok (), logs)

/-- `FramedRouteFactory<Io, S, F, R>`: the cold per-route template. -/
structure FramedRouteFactory (σ Req ε : Type) : Type where
  handler : Handler σ Req ε
  methods : List Method

/-- `FramedRouteFactory::new_service`: `ok(FramedRouteService { handler:
self.handler.clone(), methods: self.methods.clone(), .. })`. The `InitError`
channel (`()`) is never populated. -/
def FramedRouteFactory.new_service (f : FramedRouteFactory σ Req ε)
    (_ctx : Unit) : Except Unit (FramedRouteService σ Req ε) :=
  Except.ok ⟨f.handler, f.methods⟩

/-- `FramedRoute<Io, S, F, R>`: the route descriptor pairing pattern, method
list and handler. -/
structure FramedRoute (σ Req ε : Type) : Type where
  handler : Handler σ Req ε
  pattern : String
  methods : List Method

/-- `FramedRoute::new`: a descriptor with the given pattern and handler and an
empty method list. -/
def FramedRoute.new (pattern : String) (handler : Handler σ Req ε) :
    FramedRoute σ Req ε :=
  ⟨handler, pattern, []⟩

/-- `FramedRoute::method` (the `pub fn` on the descriptor itself, lines
63–66): push one more verb onto the method list. -/
def FramedRoute.method (r : FramedRoute σ Req ε) (m : Method) :
    FramedRoute σ Req ε :=
  { r with methods := r.methods ++ [m] }

/-- `<FramedRoute as HttpServiceFactory>::path`: return the stored pattern. -/
def FramedRoute.path (r : FramedRoute σ Req ε) : String :=
  r.pattern

/-- `<FramedRoute as HttpServiceFactory>::create`: consume the descriptor into
a factory carrying its handler and method list. -/
def FramedRoute.create (r : FramedRoute σ Req ε) : FramedRouteFactory σ Req ε :=
  ⟨r.handler, r.methods⟩

/-- `FramedRouteBuilder<Io, S>`: pattern plus accumulated method list; the
handler is attached only by `to`. -/
structure FramedRouteBuilder : Type where
  pattern : String
  methods : List Method
  deriving DecidableEq, Repr

/-- `FramedRouteBuilder::new`: store the path, start with no methods. -/
def FramedRouteBuilder.new (path : String) : FramedRouteBuilder :=
  ⟨path, []⟩

/-- `FramedRouteBuilder::method`: push one more verb onto the method list. -/
def FramedRouteBuilder.method (b : FramedRouteBuilder) (m : Method) :
    FramedRouteBuilder :=
  { b with methods := b.methods ++ [m] }

/-- `FramedRouteBuilder::to`: consume the builder, binding pattern, accumulated
methods and the handler into a route descriptor. -/
def FramedRouteBuilder.to (b : FramedRouteBuilder) (h : Handler σ Req ε) :
    FramedRoute σ Req ε :=
  ⟨h, b.pattern, b.methods⟩

/-- `FramedRoute::build`. -/
def FramedRoute.build (path : String) : FramedRouteBuilder :=
  FramedRouteBuilder.new path

/-- `FramedRoute::get`. -/
def FramedRoute.get (path : String) : FramedRouteBuilder :=
  (FramedRouteBuilder.new path).method Method.GET

/-- `FramedRoute::post`. -/
def FramedRoute.post (path : String) : FramedRouteBuilder :=
  (FramedRouteBuilder.new path).method Method.POST

/-- `FramedRoute::put`. -/
def FramedRoute.put (path : String) : FramedRouteBuilder :=
  (FramedRouteBuilder.new path).method Method.PUT

/-- `FramedRoute::delete`. -/
def FramedRoute.delete (path : String) : FramedRouteBuilder :=
  (FramedRouteBuilder.new path).method Method.DELETE

/-- Interpretation of a stored method list as an acceptance predicate, as the
spec words it: a verb is accepted when the list is empty or the verb is a
member. The dispatcher itself never consults this. -/
def accepts (methods : List Method) (m : Method) : Bool :=
  methods.isEmpty || methods.contains m

/-- Concrete handler on trivial types whose outcome is always success; used as
the attached handler in concrete scenarios. -/
def unitHandler : Handler Unit Unit String :=
  ⟨(), fun s _ => (s, Except.ok ())⟩

/-- Concrete handler on trivial types whose outcome is always the error
`"boom"`; used in concrete error scenarios. -/
def boomHandler : Handler Unit Unit String :=
  ⟨(), fun s _ => (s, Except.error "boom")⟩

theorem foldl_builder_method_pattern (vs : List Method) (b : FramedRouteBuilder) :
    (vs.foldl FramedRouteBuilder.method b).pattern = b.pattern := by
  induction vs generalizing b with
  | nil => rfl
  | cons v vs ih => exact ih (b.method v)

theorem foldl_builder_method_methods (vs : List Method) (b : FramedRouteBuilder) :
    (vs.foldl FramedRouteBuilder.method b).methods = b.methods ++ vs := by
  induction vs generalizing b with
  | nil => simp
  | cons v vs ih =>
      rw [List.foldl_cons, ih]
      simp [FramedRouteBuilder.method]

theorem foldl_route_method_pattern (ws : List Method) (r : FramedRoute σ Req ε) :
    (ws.foldl FramedRoute.method r).pattern = r.pattern := by
  induction ws generalizing r with
  | nil => rfl
  | cons w ws ih => exact ih (r.method w)

/-- Claim C5: `poll_ready` on a Service always returns the ready signal
`Ok(Async::Ready(()))` immediately, for every Service value — hence for every
handler type, every stored method set, and every state reached after any
sequence of `call`s — and never returns the error or not-ready variants. -/
theorem poll_ready_always_ready (s : FramedRouteService σ Req ε) :
    s.poll_ready = Except.ok (Async.Ready ()) :=
  rfl

/-- Claim C6: `new_service` on a Service Factory always succeeds, yielding a
Service carrying copies of the factory's method set and handler; the
`InitError` failure channel is never populated. -/
theorem new_service_always_succeeds (f : FramedRouteFactory σ Req ε) (ctx : Unit) :
    f.new_service ctx = Except.ok ⟨f.handler, f.methods⟩ :=
  rfl

/-- Claim C4: the completion value and log output of `call`, and the value of
`poll_ready`, do not depend on the stored method set: two Services with the
same handler but different method sets behave identically on both entry
points. The method set is never consulted as a rejection gate. -/
theorem call_poll_ready_ignore_methods (f : Handler σ Req ε)
    (m1 m2 : List Method) (display : ε → String) (req : Req) :
    ((⟨f, m1⟩ : FramedRouteService σ Req ε).call display req).2 =
      ((⟨f, m2⟩ : FramedRouteService σ Req ε).call display req).2 ∧
    (⟨f, m1⟩ : FramedRouteService σ Req ε).poll_ready =
      (⟨f, m2⟩ : FramedRouteService σ Req ε).poll_ready :=
  ⟨rfl, rfl⟩

/-- Claim C2: when the handler's outcome on the given request is a success,
`call` resolves to the unit success value, the handler's success payload (the
unit value, by the `Item = ()` bound) is discarded in favour of the dispatch
unit, and no log line is emitted. -/
theorem call_on_handler_success (s : FramedRouteService σ Req ε)
    (display : ε → String) (req : Req) (u : Unit)
    (h : (s.handler.run s.handler.state req).2 = Except.ok u) :
    (s.call display req).2 = (Except.ok (), ([] : List LogEntry)) := by
  simp only [FramedRouteService.call, h]

/-- Claim C2 witness: a concrete always-successful handler on trivial types. -/
theorem call_on_handler_success_spot :
    ((⟨unitHandler, []⟩ : FramedRouteService Unit Unit String).call id ()).2 =
      (Except.ok (), ([] : List LogEntry)) :=
  call_on_handler_success ⟨unitHandler, []⟩ id () () rfl

/-- Claim C1: when the handler's outcome on the given request is the error
`e`, `call` still resolves to the unit success value (never the dispatcher's
error variant), and the logging collaborator receives exactly one entry, at
error severity, whose message contains the displayable text of `e`. -/
theorem call_on_handler_error (s : FramedRouteService σ Req ε)
    (display : ε → String) (req : Req) (e : ε)
    (h : (s.handler.run s.handler.state req).2 = Except.error e) :
    (s.call display req).2.1 = Except.ok () ∧
    (s.call display req).2.2 =
      [⟨LogLevel.error, "Error in request handler: " ++ display e⟩] ∧
    ∃ pre post,
      "Error in request handler: " ++ display e = pre ++ display e ++ post := by
  refine ⟨?_, ?_, "Error in request handler: ", "", ?_⟩
  · simp only [FramedRouteService.call, h]
  · simp only [FramedRouteService.call, h]
  · simp

/-- Claim C1 witness: a concrete handler that fails with `"boom"`. -/
theorem call_on_handler_error_spot :
    ((⟨boomHandler, []⟩ : FramedRouteService Unit Unit String).call id ()).2.1 =
      Except.ok () ∧
    ((⟨boomHandler, []⟩ : FramedRouteService Unit Unit String).call id ()).2.2 =
      [⟨LogLevel.error, "Error in request handler: " ++ id "boom"⟩] ∧
    ∃ pre post,
      "Error in request handler: " ++ id "boom" = pre ++ id "boom" ++ post :=
  call_on_handler_error ⟨boomHandler, []⟩ id () "boom" rfl

/-- Claim C3 counterexample: the claim that no public operation on the Route
Descriptor (the value returned by `.to(handler)`) can add a method is false:
`FramedRoute::method` is public on the descriptor and appends a verb. The
descriptor built from `build("/x").to(h)` has an empty method set, yet calling
`method(GET)` on it yields the set `[GET]`. -/
theorem descriptor_method_not_frozen :
    ((FramedRoute.build "/x").to unitHandler).methods = ([] : List Method) ∧
    (((FramedRoute.build "/x").to unitHandler).method Method.GET).methods =
      [Method.GET] :=
  ⟨rfl, rfl⟩

/-- Claim C3 (amended): the method set grows during the build phase and,
additionally, through the public `method()` operation on the Route Descriptor
after `.to()`; it is frozen only after `create()`: conversion to the Factory,
every `new_service` activation, and every `call` on a produced Service carry
the method set through unchanged. -/
theorem methods_frozen_after_create (r : FramedRoute σ Req ε)
    (display : ε → String) (req : Req) :
    (r.create).methods = r.methods ∧
    r.create.new_service () = Except.ok ⟨r.handler, r.methods⟩ ∧
    ∀ svc : FramedRouteService σ Req ε,
      ((svc.call display req).1).methods = svc.methods :=
  ⟨rfl, rfl, fun _ => rfl⟩

/-- Claim C7: activating a factory mutates nothing — `new_service` is a pure
function of the factory value (the Rust receiver is `&self`), so the factory's
method set and handler are unchanged by any number of activations — and two
activations yield Services with equal method sets and equal handler state,
each an independent copy, whose invocations on the same input produce the same
non-interfering outcomes. -/
theorem factory_activation_independent (f : FramedRouteFactory σ Req ε)
    (display : ε → String) (req : Req) :
    ∃ s1 s2 : FramedRouteService σ Req ε,
      f.new_service () = Except.ok s1 ∧
      f.new_service () = Except.ok s2 ∧
      s1.methods = f.methods ∧
      s2.methods = f.methods ∧
      s1.methods = s2.methods ∧
      s1.handler.state = s2.handler.state ∧
      (s1.call display req).2 = (s2.call display req).2 :=
  ⟨⟨f.handler, f.methods⟩, ⟨f.handler, f.methods⟩, rfl, rfl, rfl, rfl, rfl, rfl, rfl⟩

/-- Claim C8: for every path `p`, every sequence `vs` of builder `method()`
calls and every sequence `ws` of descriptor-level `method()` calls, `path()`
on the descriptor built from `build(p)` — or from `get/post/put/delete(p)` —
returns exactly `p`: the pattern is set once at builder creation and is
unchanged by `method()` calls, by `.to(handler)`, and by reading it. -/
theorem path_returns_registered_pattern (p : String) (vs ws : List Method)
    (h : Handler σ Req ε) :
    (ws.foldl FramedRoute.method
      ((vs.foldl FramedRouteBuilder.method (FramedRoute.build p)).to h)).path
        = p ∧
    ((vs.foldl FramedRouteBuilder.method (FramedRoute.get p)).to h).path = p ∧
    ((vs.foldl FramedRouteBuilder.method (FramedRoute.post p)).to h).path = p ∧
    ((vs.foldl FramedRouteBuilder.method (FramedRoute.put p)).to h).path = p ∧
    ((vs.foldl FramedRouteBuilder.method (FramedRoute.delete p)).to h).path = p := by
  refine ⟨?_, ?_, ?_, ?_, ?_⟩ <;>
    simp [FramedRoute.path, FramedRouteBuilder.to, foldl_route_method_pattern,
      foldl_builder_method_pattern, FramedRoute.build, FramedRoute.get,
      FramedRoute.post, FramedRoute.put, FramedRoute.delete,
      FramedRouteBuilder.method, FramedRouteBuilder.new]

/-- Claim C10: the method set is stored as an ordered list, not a deduplicated
set: after the sequence `vs` of `method()` calls on a builder started with
`build(p)`, the stored list is exactly `vs` (hence has `vs.length` elements in
call order), and appending the same verb twice stores two occurrences. -/
theorem methods_stored_as_ordered_list (p : String) (vs : List Method)
    (m : Method) :
    (vs.foldl FramedRouteBuilder.method (FramedRoute.build p)).methods = vs ∧
    (vs.foldl FramedRouteBuilder.method (FramedRoute.build p)).methods.length
      = vs.length ∧
    (((FramedRoute.build p).method m).method m).methods = [m, m] := by
  have hbase : (vs.foldl FramedRouteBuilder.method (FramedRoute.build p)).methods
      = vs := by
    rw [foldl_builder_method_methods]
    simp [FramedRoute.build, FramedRouteBuilder.new]
  exact ⟨hbase, by rw [hbase], rfl⟩

/-- Claim C9: for every sequence of verbs appended via `method()`, the
resulting method set, read as "accepted if empty or member present", accepts
every appended verb; acceptance is invariant under permuting the order of the
`method()` calls; and `get/post/put/delete(p)` seed the builder with exactly
the single corresponding verb. -/
theorem method_set_accepts (p : String) (vs ws : List Method) (v m : Method)
    (hv : v ∈ vs) (hperm : vs.Perm ws) :
    accepts (vs.foldl FramedRouteBuilder.method (FramedRoute.build p)).methods v
      = true ∧
    accepts (ws.foldl FramedRouteBuilder.method (FramedRoute.build p)).methods m
      = accepts
          (vs.foldl FramedRouteBuilder.method (FramedRoute.build p)).methods m ∧
    (FramedRoute.get p).methods = [Method.GET] ∧
    (FramedRoute.post p).methods = [Method.POST] ∧
    (FramedRoute.put p).methods = [Method.PUT] ∧
    (FramedRoute.delete p).methods = [Method.DELETE] := by
  have hvs : (vs.foldl FramedRouteBuilder.method (FramedRoute.build p)).methods
      = vs := by
    rw [foldl_builder_method_methods]
    simp [FramedRoute.build, FramedRouteBuilder.new]
  have hws : (ws.foldl FramedRouteBuilder.method (FramedRoute.build p)).methods
      = ws := by
    rw [foldl_builder_method_methods]
    simp [FramedRoute.build, FramedRouteBuilder.new]
  refine ⟨?_, ?_, rfl, rfl, rfl, rfl⟩
  · rw [hvs]
    simp [accepts, hv]
  · rw [hvs, hws]
    have hempty : ws.isEmpty = vs.isEmpty := by
      rcases vs with _ | ⟨a, vs⟩
      · simp [hperm.symm.eq_nil]
      · rcases ws with _ | ⟨b, ws⟩
        · exact absurd hperm.eq_nil (by simp)
        · simp
    have hmem : ws.contains m = vs.contains m := by
      by_cases hm : m ∈ vs
      · have hm2 : m ∈ ws := hperm.mem_iff.mp hm
        simp [hm, hm2]
      · have hm2 : m ∉ ws := fun hc => hm (hperm.mem_iff.mpr hc)
        simp [hm, hm2]
    rw [accepts, accepts, hempty, hmem]

/-- Claim C9 witness: the verbs GET and POST appended in either order give
method sets that accept GET and agree on POST. -/
theorem method_set_accepts_spot :
    Method.GET ∈ [Method.GET, Method.POST] ∧
    List.Perm [Method.GET, Method.POST] [Method.POST, Method.GET] ∧
    (accepts ([Method.GET, Method.POST].foldl FramedRouteBuilder.method
        (FramedRoute.build "/x")).methods Method.GET = true ∧
      accepts ([Method.POST, Method.GET].foldl FramedRouteBuilder.method
        (FramedRoute.build "/x")).methods Method.POST
        = accepts ([Method.GET, Method.POST].foldl FramedRouteBuilder.method
            (FramedRoute.build "/x")).methods Method.POST ∧
      (FramedRoute.get "/x").methods = [Method.GET] ∧
      (FramedRoute.post "/x").methods = [Method.POST] ∧
      (FramedRoute.put "/x").methods = [Method.PUT] ∧
      (FramedRoute.delete "/x").methods = [Method.DELETE]) :=
  ⟨by decide, by decide,
    method_set_accepts "/x" [Method.GET, Method.POST] [Method.POST, Method.GET]
      Method.GET Method.POST (by decide) (by decide)⟩
